import Mathlib

/-!
Verification of the project lifecycle logic of
src/ui/src/components/ProjectSelector.tsx.

The component keeps per-kind pending targets (projectToDelete,
projectToDetach, projectToReattach), a menu open flag, a modal flag,
and receives the current selection through the selectedProject prop
together with the onSelectProject callback; the callback is modelled
as a direct update of the selection field. The three mutation hooks
(useDeleteProject, useDetachProject, useReattachProject) live in
src/ui/src/hooks/useProjects, which is not included under src, so
their isPending behaviour is modelled from the spec where noted.
Asynchronous mutation calls are modelled by an explicit outcome
parameter and by splitting each confirm handler into a dispatch phase
and a settlement phase; handlers return the list of mutation calls
they dispatched.
-/

set_option autoImplicit false

/-- The three lifecycle action kinds handled by the component. -/
inductive ActionKind : Type
  | delete
  | detach
  | reattach
deriving DecidableEq, Repr

/-- Outcome of an awaited mutation call: the promise either resolves or
rejects (the reject is caught by the try/catch in each confirm handler). -/
inductive MutationOutcome : Type
  | success
  | failure
deriving DecidableEq, Repr

/-- The state of the ProjectSelector component: the useState fields
isOpen, showNewProjectModal, projectToDelete, projectToDetach and
projectToReattach, the selection (owned by the parent through the
selectedProject prop and the onSelectProject callback), and the three
isPending flags of the mutation hooks. -/
structure SelectorState : Type where
  isOpen : Bool
  showNewProjectModal : Bool
  projectToDelete : Option String
  projectToDetach : Option String
  projectToReattach : Option String
  selectedProject : Option String
  deleteIsPending : Bool
  detachIsPending : Bool
  reattachIsPending : Bool
deriving DecidableEq, Repr

/-- Statistics of a project as supplied by the registry. -/
structure ProjectStats : Type where
  total : Int
  passing : Int
  percentage : Int
deriving DecidableEq, Repr

/-- A project summary as supplied by the registry (the projects prop). -/
structure ProjectSummary : Type where
  name : String
  path : String
  is_detached : Bool
  stats : ProjectStats
deriving DecidableEq, Repr

/-- The initial component state: every useState starts at false or null,
and a mutation hook starts with isPending false. -/
def initialState : SelectorState :=
  { isOpen := false
    showNewProjectModal := false
    projectToDelete := none
    projectToDetach := none
    projectToReattach := none
    selectedProject := none
    deleteIsPending := false
    detachIsPending := false
    reattachIsPending := false }

/-- The pending target field for a given action kind. -/
def pendingTarget : ActionKind → SelectorState → Option String
  | ActionKind.delete, s => s.projectToDelete
  | ActionKind.detach, s => s.projectToDetach
  | ActionKind.reattach, s => s.projectToReattach

/-- Overwrite the pending target field for a given action kind. -/
def withPendingTarget : ActionKind → Option String → SelectorState → SelectorState
  | ActionKind.delete, v, s => { s with projectToDelete := v }
  | ActionKind.detach, v, s => { s with projectToDetach := v }
  | ActionKind.reattach, v, s => { s with projectToReattach := v }

/-- The isPending flag of the mutation hook for a given action kind. -/
def isPendingFlag : ActionKind → SelectorState → Bool
  | ActionKind.delete, s => s.deleteIsPending
  | ActionKind.detach, s => s.detachIsPending
  | ActionKind.reattach, s => s.reattachIsPending

/-- Modelled from the spec: the mutation hooks in
src/ui/src/hooks/useProjects (not included under src) set the isPending
flag of the corresponding mutation when mutateAsync is dispatched. -/
def mutationStart : ActionKind → SelectorState → SelectorState
  | ActionKind.delete, s => { s with deleteIsPending := true }
  | ActionKind.detach, s => { s with detachIsPending := true }
  | ActionKind.reattach, s => { s with reattachIsPending := true }

/-- Modelled from the spec: the mutation hooks clear the isPending flag
when the call settles, success and failure alike. -/
def mutationSettled : ActionKind → SelectorState → SelectorState
  | ActionKind.delete, s => { s with deleteIsPending := false }
  | ActionKind.detach, s => { s with detachIsPending := false }
  | ActionKind.reattach, s => { s with reattachIsPending := false }

/-- A browser mouse event, tracking the two effects the click handlers
invoke on it. -/
structure MouseEvt : Type where
  propagationStopped : Bool
  defaultPrevented : Bool
deriving DecidableEq, Repr

/-- The effect of e.stopPropagation(). -/
def MouseEvt.stopPropagation (e : MouseEvt) : MouseEvt :=
  { e with propagationStopped := true }

/-- The effect of e.preventDefault(). -/
def MouseEvt.preventDefault (e : MouseEvt) : MouseEvt :=
  { e with defaultPrevented := true }

/-- A freshly dispatched click event. -/
def freshEvt : MouseEvt :=
  { propagationStopped := false, defaultPrevented := false }

/-- handleDeleteClick from the source: stops propagation, prevents the
default action, and records the delete target. -/
def handleDeleteClick (e : MouseEvt) (s : SelectorState) (projectName : String) :
    MouseEvt × SelectorState :=
  let e1 := e.stopPropagation
  let e2 := e1.preventDefault
  (e2, { s with projectToDelete := some projectName })

/-- handleDetachClick from the source: stops propagation, prevents the
default action, and records the detach target. -/
def handleDetachClick (e : MouseEvt) (s : SelectorState) (projectName : String) :
    MouseEvt × SelectorState :=
  let e1 := e.stopPropagation
  let e2 := e1.preventDefault
  (e2, { s with projectToDetach := some projectName })

/-- handleReattachClick from the source: stops propagation, prevents the
default action, and records the reattach target. -/
def handleReattachClick (e : MouseEvt) (s : SelectorState) (projectName : String) :
    MouseEvt × SelectorState :=
  let e1 := e.stopPropagation
  let e2 := e1.preventDefault
  (e2, { s with projectToReattach := some projectName })

/-- Dispatch to the click handler of the given kind. -/
def actionClickHandler : ActionKind → MouseEvt → SelectorState → String →
    MouseEvt × SelectorState
  | ActionKind.delete => handleDeleteClick
  | ActionKind.detach => handleDetachClick
  | ActionKind.reattach => handleReattachClick

/-- Modelled from the spec: selecting a row item sets the selection via
onSelectProject(project.name) (from the source, line 147) and closes the
menu; the closing on item select is behaviour of the dropdown menu
component under src/ui/src/components/ui, which is not included under
src. -/
def rowOnSelect (s : SelectorState) (name : String) : SelectorState :=
  { s with selectedProject := some name, isOpen := false }

/-- A click on an action icon of a project row: the icon handler runs
first; only if it did not stop propagation would the click reach the row
item and trigger its onSelect. -/
def clickActionIcon (k : ActionKind) (s : SelectorState) (name : String) :
    SelectorState :=
  let r := actionClickHandler k freshEvt s name
  if r.1.propagationStopped then r.2 else rowOnSelect r.2 name

/-- Modelled from the spec: the menu trigger button carries
disabled isLoading, so while the project list is loading the
row-selection transition is unavailable and the state is unchanged. -/
def selectProjectRow (isLoading : Bool) (s : SelectorState) (name : String) :
    SelectorState :=
  if isLoading then s else rowOnSelect s name

/-- handleProjectCreated from the source: onSelectProject(projectName)
followed by setIsOpen(false). -/
def handleProjectCreated (s : SelectorState) (projectName : String) :
    SelectorState :=
  { s with selectedProject := some projectName, isOpen := false }

/-- handleCancelDelete from the source: setProjectToDelete(null). -/
def handleCancelDelete (s : SelectorState) : SelectorState :=
  { s with projectToDelete := none }

/-- The inline onCancel of the detach dialog: setProjectToDetach(null). -/
def handleCancelDetach (s : SelectorState) : SelectorState :=
  { s with projectToDetach := none }

/-- The inline onCancel of the reattach dialog:
setProjectToReattach(null). -/
def handleCancelReattach (s : SelectorState) : SelectorState :=
  { s with projectToReattach := none }

/-- Dispatch to the cancel handler of the given kind. -/
def handleCancel : ActionKind → SelectorState → SelectorState
  | ActionKind.delete => handleCancelDelete
  | ActionKind.detach => handleCancelDetach
  | ActionKind.reattach => handleCancelReattach

/-- Dispatch phase of handleConfirmDelete: the guard
if (!projectToDelete) return is true for null and also for the empty
string (JavaScript falsiness), in which case nothing is dispatched;
otherwise deleteProject.mutateAsync(projectToDelete) is dispatched.
Returns the in-flight state and the list of dispatched calls. -/
def handleConfirmDeleteDispatch (s : SelectorState) :
    SelectorState × List (ActionKind × String) :=
  match s.projectToDelete with
  | none => (s, [])
  | some p =>
    if p = "" then (s, [])
    else (mutationStart ActionKind.delete s, [(ActionKind.delete, p)])

/-- Settlement phase of handleConfirmDelete: the isPending flag is
cleared by the hook; on success, if selectedProject === projectToDelete
then onSelectProject(null), then setProjectToDelete(null); on failure
(the catch branch) the error is logged and setProjectToDelete(null). -/
def handleConfirmDeleteSettle (s : SelectorState) (outcome : MutationOutcome) :
    SelectorState :=
  let s1 := mutationSettled ActionKind.delete s
  match outcome with
  | MutationOutcome.success =>
    let s2 :=
      if s1.selectedProject = s1.projectToDelete then
        { s1 with selectedProject := none }
      else s1
    { s2 with projectToDelete := none }
  | MutationOutcome.failure =>
    { s1 with projectToDelete := none }

/-- handleConfirmDelete from the source, as dispatch followed by
settlement; when the guard returned early there is no settlement. -/
def handleConfirmDelete (s : SelectorState) (outcome : MutationOutcome) :
    SelectorState × List (ActionKind × String) :=
  match handleConfirmDeleteDispatch s with
  | (s1, []) => (s1, [])
  | (s1, calls) => (handleConfirmDeleteSettle s1 outcome, calls)

/-- Dispatch phase of handleConfirmDetach: the guard
if (!projectToDetach) return, then detachProject.mutateAsync. -/
def handleConfirmDetachDispatch (s : SelectorState) :
    SelectorState × List (ActionKind × String) :=
  match s.projectToDetach with
  | none => (s, [])
  | some p =>
    if p = "" then (s, [])
    else (mutationStart ActionKind.detach s, [(ActionKind.detach, p)])

/-- Settlement phase of handleConfirmDetach: both the try branch and the
catch branch end with setProjectToDetach(null). -/
def handleConfirmDetachSettle (s : SelectorState) (outcome : MutationOutcome) :
    SelectorState :=
  let s1 := mutationSettled ActionKind.detach s
  match outcome with
  | MutationOutcome.success => { s1 with projectToDetach := none }
  | MutationOutcome.failure => { s1 with projectToDetach := none }

/-- handleConfirmDetach from the source. -/
def handleConfirmDetach (s : SelectorState) (outcome : MutationOutcome) :
    SelectorState × List (ActionKind × String) :=
  match handleConfirmDetachDispatch s with
  | (s1, []) => (s1, [])
  | (s1, calls) => (handleConfirmDetachSettle s1 outcome, calls)

/-- Dispatch phase of handleConfirmReattach: the guard
if (!projectToReattach) return, then reattachProject.mutateAsync. -/
def handleConfirmReattachDispatch (s : SelectorState) :
    SelectorState × List (ActionKind × String) :=
  match s.projectToReattach with
  | none => (s, [])
  | some p =>
    if p = "" then (s, [])
    else (mutationStart ActionKind.reattach s, [(ActionKind.reattach, p)])

/-- Settlement phase of handleConfirmReattach: both the try branch and
the catch branch end with setProjectToReattach(null). -/
def handleConfirmReattachSettle (s : SelectorState) (outcome : MutationOutcome) :
    SelectorState :=
  let s1 := mutationSettled ActionKind.reattach s
  match outcome with
  | MutationOutcome.success => { s1 with projectToReattach := none }
  | MutationOutcome.failure => { s1 with projectToReattach := none }

/-- handleConfirmReattach from the source. -/
def handleConfirmReattach (s : SelectorState) (outcome : MutationOutcome) :
    SelectorState × List (ActionKind × String) :=
  match handleConfirmReattachDispatch s with
  | (s1, []) => (s1, [])
  | (s1, calls) => (handleConfirmReattachSettle s1 outcome, calls)

/-- Dispatch to the confirm dispatch phase of the given kind. -/
def confirmDispatchPhase : ActionKind → SelectorState →
    SelectorState × List (ActionKind × String)
  | ActionKind.delete => handleConfirmDeleteDispatch
  | ActionKind.detach => handleConfirmDetachDispatch
  | ActionKind.reattach => handleConfirmReattachDispatch

/-- Dispatch to the confirm settlement phase of the given kind. -/
def confirmSettlePhase : ActionKind → SelectorState → MutationOutcome →
    SelectorState
  | ActionKind.delete => handleConfirmDeleteSettle
  | ActionKind.detach => handleConfirmDetachSettle
  | ActionKind.reattach => handleConfirmReattachSettle

/-- Dispatch to the full confirm handler of the given kind. -/
def handleConfirm : ActionKind → SelectorState → MutationOutcome →
    SelectorState × List (ActionKind × String)
  | ActionKind.delete => handleConfirmDelete
  | ActionKind.detach => handleConfirmDetach
  | ActionKind.reattach => handleConfirmReattach

/-- The isOpen prop of the delete confirmation dialog:
projectToDelete !== null. -/
def deleteDialogIsOpen (s : SelectorState) : Bool :=
  s.projectToDelete.isSome

/-- The isOpen prop of the detach confirmation dialog:
projectToDetach !== null. -/
def detachDialogIsOpen (s : SelectorState) : Bool :=
  s.projectToDetach.isSome

/-- The isOpen prop of the reattach confirmation dialog:
projectToReattach !== null. -/
def reattachDialogIsOpen (s : SelectorState) : Bool :=
  s.projectToReattach.isSome

/-- The confirmation dialog visibility for a given kind. -/
def dialogIsOpen : ActionKind → SelectorState → Bool
  | ActionKind.delete => deleteDialogIsOpen
  | ActionKind.detach => detachDialogIsOpen
  | ActionKind.reattach => reattachDialogIsOpen

/-- The user-visible operations of the component. -/
inductive Op : Type
  | clickAction (k : ActionKind) (name : String)
  | cancel (k : ActionKind)
  | confirm (k : ActionKind) (outcome : MutationOutcome)
  | selectRow (isLoading : Bool) (name : String)
  | projectCreated (name : String)
deriving DecidableEq, Repr

/-- One operation applied to a state, returning the new state and the
list of mutation calls dispatched while handling it; only the confirm
handlers dispatch mutation calls. -/
def step : Op → SelectorState → SelectorState × List (ActionKind × String)
  | Op.clickAction k name, s => (clickActionIcon k s name, [])
  | Op.cancel k, s => (handleCancel k s, [])
  | Op.confirm k outcome, s => handleConfirm k s outcome
  | Op.selectRow isLoading name, s => (selectProjectRow isLoading s name, [])
  | Op.projectCreated name, s => (handleProjectCreated s name, [])

/-! Theorems about the embedded component. -/

/-- C1: as frozen the claim fails at the empty project name: with
pending delete target equal to the empty string, the confirm handler
guard if (!projectToDelete) treats the empty string as absent, returns
early, and the pending target stays set after the operation settles. -/
theorem C1_counterexample_empty_name :
    pendingTarget ActionKind.delete
      (step (Op.confirm ActionKind.delete MutationOutcome.success)
        { initialState with projectToDelete := some "" }).1 ≠ none := by
  decide

/-- C1 (amended to nonempty project names): for every action kind and
every nonempty pending target, once the confirm operation settles,
success or failure alike, the pending target for that kind is none. -/
theorem C1_confirm_clears_pending (k : ActionKind) (s : SelectorState)
    (p : String) (outcome : MutationOutcome)
    (hp : pendingTarget k s = some p) (hne : p ≠ "") :
    pendingTarget k (step (Op.confirm k outcome) s).1 = none := by
  cases k <;> cases outcome <;>
    simp_all [step, handleConfirm, pendingTarget,
      handleConfirmDelete, handleConfirmDeleteDispatch, handleConfirmDeleteSettle,
      handleConfirmDetach, handleConfirmDetachDispatch, handleConfirmDetachSettle,
      handleConfirmReattach, handleConfirmReattachDispatch, handleConfirmReattachSettle,
      mutationStart, mutationSettled]

/-- Witness for C1_confirm_clears_pending at a concrete state. -/
theorem C1_confirm_clears_pending_witness :
    pendingTarget ActionKind.delete
      (step (Op.confirm ActionKind.delete MutationOutcome.failure)
        { initialState with projectToDelete := some "alpha" }).1 = none :=
  C1_confirm_clears_pending ActionKind.delete
    { initialState with projectToDelete := some "alpha" } "alpha"
    MutationOutcome.failure rfl (by decide)

/-- C2: after a delete mutation dispatched for target p succeeds, the
selection becomes none exactly when it equalled p and is unchanged
otherwise; after a failed delete the selection is always unchanged; and
the dispatch phase itself never touches the selection, so selection
reconciliation happens only at a successful settlement. -/
theorem C2_delete_selection_reconciliation (s : SelectorState) (p : String)
    (hp : s.projectToDelete = some p) (hne : p ≠ "") :
    ((handleConfirmDelete s MutationOutcome.success).1.selectedProject
        = if s.selectedProject = some p then none else s.selectedProject)
    ∧ (handleConfirmDelete s MutationOutcome.failure).1.selectedProject
        = s.selectedProject
    ∧ (handleConfirmDeleteDispatch s).1.selectedProject = s.selectedProject := by
  by_cases hsel : s.selectedProject = some p <;>
    simp_all [handleConfirmDelete, handleConfirmDeleteDispatch,
      handleConfirmDeleteSettle, mutationStart, mutationSettled]

/-- Witness for C2_delete_selection_reconciliation at a concrete state,
stated with the evaluated selection values. -/
theorem C2_delete_selection_reconciliation_witness :
    (handleConfirmDelete { initialState with projectToDelete := some "alpha", selectedProject := some "alpha" } MutationOutcome.success).1.selectedProject = none
    ∧ (handleConfirmDelete { initialState with projectToDelete := some "alpha", selectedProject := some "alpha" } MutationOutcome.failure).1.selectedProject = some "alpha"
    ∧ (handleConfirmDeleteDispatch { initialState with projectToDelete := some "alpha", selectedProject := some "alpha" }).1.selectedProject = some "alpha" :=
  C2_delete_selection_reconciliation
    { initialState with projectToDelete := some "alpha", selectedProject := some "alpha" }
    "alpha" rfl (by decide)

/-- C3: as frozen the claim fails at the empty project name: with
pending delete target equal to the empty string, confirming dispatches
no mutation call at all rather than exactly one. -/
theorem C3_counterexample_empty_name :
    (step (Op.confirm ActionKind.delete MutationOutcome.success)
      { initialState with projectToDelete := some "" }).2
      ≠ [(ActionKind.delete, "")] := by
  decide

/-- C3 (amended to nonempty project names): with a nonempty pending
target p for kind k, the dispatch phase emits exactly the single call
(k, p), the isPending flag for k is true in the in-flight state and
false after settlement, and the full confirm handler emits exactly that
one call whatever the outcome, so no retries happen. -/
theorem C3_single_dispatch_pending_flag (k : ActionKind) (s : SelectorState)
    (p : String) (outcome : MutationOutcome)
    (hp : pendingTarget k s = some p) (hne : p ≠ "") :
    (confirmDispatchPhase k s).2 = [(k, p)]
    ∧ isPendingFlag k (confirmDispatchPhase k s).1 = true
    ∧ isPendingFlag k
        (confirmSettlePhase k (confirmDispatchPhase k s).1 outcome) = false
    ∧ (step (Op.confirm k outcome) s).2 = [(k, p)] := by
  cases k <;> cases outcome <;>
    simp_all [step, handleConfirm, pendingTarget, isPendingFlag,
      confirmDispatchPhase, confirmSettlePhase,
      handleConfirmDelete, handleConfirmDeleteDispatch, handleConfirmDeleteSettle,
      handleConfirmDetach, handleConfirmDetachDispatch, handleConfirmDetachSettle,
      handleConfirmReattach, handleConfirmReattachDispatch, handleConfirmReattachSettle,
      mutationStart, mutationSettled, apply_ite]

/-- Witness for C3_single_dispatch_pending_flag at a concrete state. -/
theorem C3_single_dispatch_pending_flag_witness :
    (confirmDispatchPhase ActionKind.reattach
        { initialState with projectToReattach := some "beta" }).2
      = [(ActionKind.reattach, "beta")]
    ∧ isPendingFlag ActionKind.reattach
        (confirmDispatchPhase ActionKind.reattach
          { initialState with projectToReattach := some "beta" }).1 = true
    ∧ isPendingFlag ActionKind.reattach
        (confirmSettlePhase ActionKind.reattach
          (confirmDispatchPhase ActionKind.reattach
            { initialState with projectToReattach := some "beta" }).1
          MutationOutcome.failure) = false
    ∧ (step (Op.confirm ActionKind.reattach MutationOutcome.failure)
        { initialState with projectToReattach := some "beta" }).2
      = [(ActionKind.reattach, "beta")] :=
  C3_single_dispatch_pending_flag ActionKind.reattach
    { initialState with projectToReattach := some "beta" } "beta"
    MutationOutcome.failure rfl (by decide)

/-- C4: as frozen the claim fails for starting states that already hold
a pending target for the kind: opening on a new target and canceling
then clears the pending target, so the result differs from the starting
state that held the prior target. -/
theorem C4_counterexample_prior_pending :
    (step (Op.cancel ActionKind.delete)
      (step (Op.clickAction ActionKind.delete "beta")
        { initialState with projectToDelete := some "alpha" }).1).1
      ≠ { initialState with projectToDelete := some "alpha" } := by
  decide

/-- C4 (amended to starting states whose pending target for the kind is
none): opening kind k on target p and then canceling k restores exactly
the starting state, and neither operation dispatches a mutation call. -/
theorem C4_open_then_cancel_identity (k : ActionKind) (s : SelectorState)
    (p : String) (h : pendingTarget k s = none) :
    (step (Op.cancel k) (step (Op.clickAction k p) s).1).1 = s
    ∧ (step (Op.clickAction k p) s).2 = []
    ∧ (step (Op.cancel k) (step (Op.clickAction k p) s).1).2 = [] := by
  cases s
  cases k <;>
    simp_all [step, clickActionIcon, actionClickHandler, handleDeleteClick,
      handleDetachClick, handleReattachClick, freshEvt,
      MouseEvt.stopPropagation, MouseEvt.preventDefault, rowOnSelect,
      handleCancel, handleCancelDelete, handleCancelDetach,
      handleCancelReattach, pendingTarget]

/-- Witness for C4_open_then_cancel_identity at a concrete state. -/
theorem C4_open_then_cancel_identity_witness :
    (step (Op.cancel ActionKind.detach)
      (step (Op.clickAction ActionKind.detach "gamma") initialState).1).1
      = initialState
    ∧ (step (Op.clickAction ActionKind.detach "gamma") initialState).2 = []
    ∧ (step (Op.cancel ActionKind.detach)
        (step (Op.clickAction ActionKind.detach "gamma") initialState).1).2
      = [] :=
  C4_open_then_cancel_identity ActionKind.detach initialState "gamma" rfl

/-- C5: opening kind k on target p2 while k already has pending target
p1 overwrites the single pending slot for k with p2 and changes nothing
else, so the final pending target is p2, no queued action for p1
remains, and no mutation call is dispatched. -/
theorem C5_open_replaces_pending (k : ActionKind) (s : SelectorState)
    (p1 p2 : String) (h : pendingTarget k s = some p1) :
    (step (Op.clickAction k p2) s).1 = withPendingTarget k (some p2) s
    ∧ pendingTarget k (step (Op.clickAction k p2) s).1 = some p2
    ∧ (step (Op.clickAction k p2) s).2 = [] := by
  cases k <;>
    simp [step, clickActionIcon, actionClickHandler, handleDeleteClick,
      handleDetachClick, handleReattachClick, freshEvt,
      MouseEvt.stopPropagation, MouseEvt.preventDefault, rowOnSelect,
      withPendingTarget, pendingTarget]

/-- Witness for C5_open_replaces_pending at a concrete state. -/
theorem C5_open_replaces_pending_witness :
    (step (Op.clickAction ActionKind.delete "p2")
        { initialState with projectToDelete := some "p1" }).1
      = withPendingTarget ActionKind.delete (some "p2")
          { initialState with projectToDelete := some "p1" }
    ∧ pendingTarget ActionKind.delete
        (step (Op.clickAction ActionKind.delete "p2")
          { initialState with projectToDelete := some "p1" }).1 = some "p2"
    ∧ (step (Op.clickAction ActionKind.delete "p2")
        { initialState with projectToDelete := some "p1" }).2 = [] :=
  C5_open_replaces_pending ActionKind.delete
    { initialState with projectToDelete := some "p1" } "p1" "p2" rfl

/-- C6: a click on the action icon of kind k on a row only overwrites
the pending target for k; in particular the selection is unchanged,
because the icon handler stops propagation so the click never reaches
the row onSelect handler. -/
theorem C6_action_click_preserves_selection (k : ActionKind)
    (s : SelectorState) (name : String) :
    (step (Op.clickAction k name) s).1 = withPendingTarget k (some name) s
    ∧ (step (Op.clickAction k name) s).1.selectedProject = s.selectedProject := by
  cases k <;>
    simp [step, clickActionIcon, actionClickHandler, handleDeleteClick,
      handleDetachClick, handleReattachClick, freshEvt,
      MouseEvt.stopPropagation, MouseEvt.preventDefault, rowOnSelect,
      withPendingTarget]

/-- C7: for a project p of the supplied list, clicking its row while the
list is not loading sets the selection to its name and closes the menu,
and the row-selection transition is a no-op while isLoading is true. -/
theorem C7_row_selection (projects : List ProjectSummary) (p : ProjectSummary)
    (s : SelectorState) (hp : p ∈ projects) :
    (step (Op.selectRow false p.name) s).1.selectedProject = some p.name
    ∧ (step (Op.selectRow false p.name) s).1.isOpen = false
    ∧ step (Op.selectRow true p.name) s = (s, []) := by
  simp [step, selectProjectRow, rowOnSelect]

/-- Witness for C7_row_selection at a concrete project list and state. -/
theorem C7_row_selection_witness :
    (step (Op.selectRow false
        (ProjectSummary.mk "alpha" "/w/alpha" false (ProjectStats.mk 10 8 80)).name)
      initialState).1.selectedProject
      = some (ProjectSummary.mk "alpha" "/w/alpha" false (ProjectStats.mk 10 8 80)).name
    ∧ (step (Op.selectRow false
        (ProjectSummary.mk "alpha" "/w/alpha" false (ProjectStats.mk 10 8 80)).name)
      initialState).1.isOpen = false
    ∧ step (Op.selectRow true
        (ProjectSummary.mk "alpha" "/w/alpha" false (ProjectStats.mk 10 8 80)).name)
      initialState = (initialState, []) :=
  C7_row_selection
    [ProjectSummary.mk "alpha" "/w/alpha" false (ProjectStats.mk 10 8 80)]
    (ProjectSummary.mk "alpha" "/w/alpha" false (ProjectStats.mk 10 8 80))
    initialState (by simp)

/-- C8: the wizard completion handler is the same transition as a user
row selection of the new name with the list not loading: it sets the
selection to the name and closes the menu. -/
theorem C8_created_equals_user_selection (s : SelectorState) (n : String) :
    step (Op.projectCreated n) s = step (Op.selectRow false n) s := rfl

/-- C9: confirming kind k while its pending target is none is a guarded
no-op: no mutation call is dispatched and the state is returned
unchanged. -/
theorem C9_confirm_noop_when_no_target (k : ActionKind) (s : SelectorState)
    (outcome : MutationOutcome) (h : pendingTarget k s = none) :
    step (Op.confirm k outcome) s = (s, []) := by
  cases k <;>
    simp_all [step, handleConfirm, pendingTarget,
      handleConfirmDelete, handleConfirmDeleteDispatch,
      handleConfirmDetach, handleConfirmDetachDispatch,
      handleConfirmReattach, handleConfirmReattachDispatch]

/-- Witness for C9_confirm_noop_when_no_target at a concrete state. -/
theorem C9_confirm_noop_when_no_target_witness :
    step (Op.confirm ActionKind.detach MutationOutcome.success) initialState
      = (initialState, []) :=
  C9_confirm_noop_when_no_target ActionKind.detach initialState
    MutationOutcome.success rfl

/-- C10: in every state the confirmation dialog of kind k is open
exactly when the pending target of kind k is not none, because the
dialog isOpen prop is computed from that very field; consequently every
operation preserves the correspondence. -/
theorem C10_dialog_open_iff_pending (k : ActionKind) (s : SelectorState) :
    (dialogIsOpen k s = true ↔ pendingTarget k s ≠ none)
    ∧ ∀ op : Op,
        (dialogIsOpen k (step op s).1 = true
          ↔ pendingTarget k (step op s).1 ≠ none) := by
  constructor
  · cases k <;>
      simp [dialogIsOpen, deleteDialogIsOpen, detachDialogIsOpen,
        reattachDialogIsOpen, pendingTarget, Option.isSome_iff_ne_none]
  · intro op
    cases k <;>
      simp [dialogIsOpen, deleteDialogIsOpen, detachDialogIsOpen,
        reattachDialogIsOpen, pendingTarget, Option.isSome_iff_ne_none]
